import Mathlib

/-!
Shallow embedding of the authentication/session core and the guarded CRUD
handlers of the task_manager backend (src/app/crud.py, src/app/routers/auth.py,
src/app/routers/tasks.py, src/app/routers/users.py).

Timestamps are modelled as integers (seconds since the epoch); `datetime.now()`
becomes an explicit `now : Int` argument, and `timedelta` values become their
length in seconds.  The external JWT library (python-jose) is modelled at its
interface: a token value records the payload it was signed over and the key it
was signed with; `jwt.decode` fails with a `JWTError` on an empty string, a
malformed string, or a key mismatch, and — since the source calls it with
default options, i.e. `verify_exp` on with zero leeway — raises
`ExpiredSignatureError` (a `JWTError` subclass) when the payload carries an
`exp` that has passed at decode time.  The decode-time clock (jose's
`utcnow()`) and the guards' `datetime.now()` are one `now` argument.
`HTTPException` is modelled as its observable pair (status code, detail),
and the Unicode digit class of `re.search(r"\d", ...)` is a parameter of the
password-strength check.
-/

namespace TaskManager

/-- `fastapi.HTTPException`, reduced to its observable data. -/
structure HTTPException where
  status_code : Nat
  detail : String
deriving DecidableEq, Repr

/-- The decoded JWT payload.  The source only ever reads the keys
`"sub"`, `"id"` and `"exp"`; each is optional since an externally crafted
token may omit any of them.  `exp` is a timestamp in seconds. -/
structure Payload where
  sub : Option String
  id : Option Int
  exp : Option Int
deriving DecidableEq, Repr

/-- Python truthiness of the payload dict: `if not payload:` is taken when the
dict is empty, i.e. none of the modelled keys is present. -/
def Payload.isEmpty (p : Payload) : Bool :=
  p.sub.isNone && p.id.isNone && p.exp.isNone

/-- A token string at the granularity the JWT library distinguishes:
the empty string, a well-formed token signed over `payload` with `key`,
or any other (malformed) string. -/
inductive TokenStr where
  | empty
  | signed (payload : Payload) (key : String)
  | malformed (s : String)
deriving DecidableEq, Repr

/-- `jose.JWTError` and its subclass `jose.ExpiredSignatureError`; the source
only ever catches the base class, so the two are indistinguishable there. -/
inductive JWTError where
  | jwtError
  | expiredSignature
deriving DecidableEq, Repr

/-- `jose.jwt.encode(payload, key, ALGORITHM)`: produces a token signed over
the payload with the key. -/
def jwtEncode (payload : Payload) (key : String) : TokenStr :=
  TokenStr.signed payload key

/-- `jose.jwt.decode(token, key, algorithms=[ALGORITHM])` with default
options: raises `JWTError` on an empty or malformed string or a signature
mismatch; then, `verify_exp` being on by default with zero leeway, raises
`ExpiredSignatureError` when the payload has an `exp` already passed at
decode time (`exp < now`); otherwise returns the embedded payload
unmodified.  A payload without `exp` is not rejected. -/
def jwtDecode (token : TokenStr) (key : String) (now : Int) :
    Except JWTError Payload :=
  match token with
  | TokenStr.signed payload k =>
      if k = key then
        match payload.exp with
        | some e =>
          if now > e then Except.error JWTError.expiredSignature
          else Except.ok payload
        | none => Except.ok payload
      else Except.error JWTError.jwtError
  | _ => Except.error JWTError.jwtError

/-- src/app/crud.py line 16: `SECRET_KEY = os.getenv("SECRET_KEY",
'your_default_secret_key')`; modelled as the built-in default. -/
def SECRET_KEY : String := "your_default_secret_key"

/-- The default ttl `timedelta(minutes=15)`, in seconds. -/
def fifteenMinutes : Int := 15 * 60

/-- src/app/crud.py `create_access_token(data, expires_delta)`.
`expires_delta` is `Option Int` (seconds); Python's `if expires_delta:` is
falsy both for `None` and for `timedelta(0)`, hence the zero test. -/
def create_access_token (data : Payload) (expires_delta : Option Int)
    (now : Int) : TokenStr :=
  let expire : Int :=
    match expires_delta with
    | some d => if d = 0 then now + fifteenMinutes else now + d
    | none => now + fifteenMinutes
  jwtEncode { data with exp := some expire } SECRET_KEY

/-- src/app/crud.py `verify_access_token(token)`: 409 on an empty token,
409 on any `JWTError` (including `ExpiredSignatureError` from jose's default
expiry validation), otherwise the decoded payload unmodified.  `now` is the
decode-time clock consumed by `jwt.decode`. -/
def verify_access_token (token : TokenStr) (now : Int) :
    Except HTTPException Payload :=
  if token = TokenStr.empty then
    Except.error ⟨409, "Токен пустой"⟩
  else
    match jwtDecode token SECRET_KEY now with
    | Except.ok payload => Except.ok payload
    | Except.error _ => Except.error ⟨409, "Недействительный токе"⟩

/-- The resolved principal dict `{"username": ..., "id": ...}` both
`get_current_user` implementations return. -/
structure Principal where
  username : String
  id : Int
deriving DecidableEq, Repr

/-- src/app/crud.py `get_current_user(token)`, with `datetime.now()` passed
in as `now`. -/
def crud_get_current_user (token : TokenStr) (now : Int) :
    Except HTTPException Principal :=
  match verify_access_token token now with
  | Except.error e => Except.error e
  | Except.ok payload =>
    if payload.isEmpty then
      Except.error ⟨401, "Пользователь неавторизован"⟩
    else
      match payload.sub, payload.id with
      | some name, some user_id =>
        match payload.exp with
        | none => Except.error ⟨400, "ошибка срока токена"⟩
        | some expire =>
          if now > expire then
            Except.error ⟨401, "Истек срок токена"⟩
          else
            Except.ok ⟨name, user_id⟩
      | _, _ => Except.error ⟨401, "Пользователь неавторизован"⟩

/-- src/app/routers/auth.py `get_current_user(token)`.  The whole body runs
inside `try ... except JWTError`; only `jwt.decode` can raise `JWTError`, the
inner `HTTPException`s propagate. -/
def auth_get_current_user (token : TokenStr) (now : Int) :
    Except HTTPException Principal :=
  match jwtDecode token SECRET_KEY now with
  | Except.error _ => Except.error ⟨401, "Не удалось проверить пользователя"⟩
  | Except.ok payload =>
    match payload.sub, payload.id with
    | some name, some user_id =>
      match payload.exp with
      | none => Except.error ⟨400, "Не предоставлен токен доступа"⟩
      | some expire =>
        if now > expire then
          Except.error ⟨403, "Токен истёк!"⟩
        else
          Except.ok ⟨name, user_id⟩
    | _, _ => Except.error ⟨401, "Не удалось проверить пользователя"⟩

/-- src/app/routers/auth.py `create_access_token(name, user_id,
expires_delta)` (the router's own re-implementation of token issuance). -/
def auth_create_access_token (name : String) (user_id : Int)
    (expires_delta : Int) (now : Int) : TokenStr :=
  jwtEncode ⟨some name, some user_id, some (now + expires_delta)⟩ SECRET_KEY

/-- Row of the `users` table (src/app/models/users.py); `password` holds the
stored bcrypt hash. -/
structure User where
  id : Int
  name : String
  email : String
  password : String
deriving DecidableEq, Repr

/-- src/app/routers/auth.py `authenticate_user(db, user_name, password)`.
The Identity Store read `db.scalar(select(User).where(User.name == user_name))`
is the first user with that name; `bcrypt_context.verify` is the external
Credential Verifier, passed in as `verify`. -/
def authenticate_user (verify : String → String → Bool) (db : List User)
    (user_name : String) (password : String) : Except HTTPException User :=
  match db.find? (fun u => u.name == user_name) with
  | none => Except.error ⟨401, "Данные некорректны"⟩
  | some user =>
    if verify password user.password then
      Except.ok user
    else
      Except.error ⟨401, "Данные некорректны"⟩

/-- The `/auth/token` response body. -/
structure LoginResponse where
  access_token : TokenStr
  token_type : String
deriving DecidableEq, Repr

/-- src/app/routers/auth.py `login(db, form_data)`: authenticate, then issue a
token with `expires_delta=timedelta(minutes=15)`.  (`if not user:` in the
source is dead code: a returned `User` object is always truthy.) -/
def login (verify : String → String → Bool) (db : List User)
    (username : String) (password : String) (now : Int) :
    Except HTTPException LoginResponse :=
  match authenticate_user verify db username password with
  | Except.error e => Except.error e
  | Except.ok user =>
    Except.ok ⟨auth_create_access_token user.name user.id fifteenMinutes now,
               "bearer"⟩

/-- Row of the `tasks` table (src/app/models/tasks.py). -/
structure Task where
  id : Int
  title : String
  description : String
  status : String
  user_id : Int
deriving DecidableEq, Repr

/-- The ownership filter `select(Task).where(Task.id == task_id,
Task.user_id == user_id)` shared by the three per-id task handlers. -/
def taskOwnedBy (task_id : Int) (user_id : Int) (t : Task) : Bool :=
  t.id == task_id && t.user_id == user_id

/-- src/app/routers/tasks.py `get_task_id(task_id, db, user)`: first task
matching both id and owner, else 404. -/
def get_task_id (db : List Task) (task_id : Int) (user : Principal) :
    Except HTTPException Task :=
  match db.find? (taskOwnedBy task_id user.id) with
  | none => Except.error ⟨404, "Задача не найдена"⟩
  | some task => Except.ok task

/-- `schemas.UpdateTask`: the only field is `status`. -/
structure UpdateTask where
  status : String
deriving DecidableEq, Repr

/-- Replace the first element of `db` satisfying `p` by `f` applied to it
(the SQLAlchemy session mutates the fetched row in place). -/
def updateFirst (p : Task → Bool) (f : Task → Task) : List Task → List Task
  | [] => []
  | t :: ts => if p t then f t :: ts else t :: updateFirst p f ts

/-- src/app/routers/tasks.py `update_task(task_id, task, db, user)`: returns
the task store after the call together with the handler's result. -/
def update_task (db : List Task) (task_id : Int) (task : UpdateTask)
    (user : Principal) : List Task × Except HTTPException Task :=
  match db.find? (taskOwnedBy task_id user.id) with
  | none => (db, Except.error ⟨404, "Задача не найдена"⟩)
  | some db_task =>
    let updated : Task := { db_task with status := task.status }
    (updateFirst (taskOwnedBy task_id user.id) (fun t => { t with status := task.status }) db,
     Except.ok updated)

/-- Remove the first element of `db` satisfying `p` (`db.delete(db_task)`). -/
def deleteFirst (p : Task → Bool) : List Task → List Task
  | [] => []
  | t :: ts => if p t then ts else t :: deleteFirst p ts

/-- src/app/routers/tasks.py `delete_task(task_id, db, user)`: returns the
task store after the call together with the handler's result (the body
`{"detail": "Задача удалена"}` reduced to its detail string). -/
def delete_task (db : List Task) (task_id : Int) (user : Principal) :
    List Task × Except HTTPException String :=
  match db.find? (taskOwnedBy task_id user.id) with
  | none => (db, Except.error ⟨404, "Задача не найдена"⟩)
  | some _ =>
    (deleteFirst (taskOwnedBy task_id user.id) db, Except.ok "Задача удалена")

/-- The special-character class of src/app/routers/users.py line 43:
`[!@#$%^&*()_+{}\[\]:;<>,.?/~` + backtick + `]`. -/
def specialChars : List Char :=
  "!@#$%^&*()_+\x7b\x7d[]:;<>,.?/~\x60".data

/-- src/app/routers/users.py `is_password_strong(password)`: at least 8
characters, and at least one uppercase letter, lowercase letter, digit and
special character.  `[A-Z]`, `[a-z]` and the special class are literal
ASCII ranges; `re.search(r"\d", ...)` matches any Unicode decimal digit
(category Nd), so that class of the external regex engine is the
parameter `digit`. -/
def is_password_strong (digit : Char → Bool) (password : String) : Bool :=
  if password.data.length < 8 then false
  else if !password.data.any (fun c => 'A' ≤ c && c ≤ 'Z') then false
  else if !password.data.any (fun c => 'a' ≤ c && c ≤ 'z') then false
  else if !password.data.any digit then false
  else if !password.data.any (fun c => specialChars.contains c) then false
  else true

/-- `schemas.CreateUser`. -/
structure CreateUser where
  name : String
  email : String
  password : String
deriving DecidableEq, Repr

/-- src/app/routers/users.py `create_user(db, user)`: reject a weak password
with 400; otherwise hash the password (`hash` is the external
`bcrypt_context.hash`), insert the row, mapping a unique-constraint
`IntegrityError` (duplicate name or email) to 400 after rollback.  Returns
the user store after the call together with the handler's result;
`nextId` stands in for the autoincrement primary key. -/
def create_user (digit : Char → Bool) (hash : String → String) (nextId : Int)
    (db : List User) (user : CreateUser) :
    List User × Except HTTPException User :=
  if !is_password_strong digit user.password then
    (db, Except.error ⟨400, "Пароль не соответствует требованиям"⟩)
  else
    let new_user : User := ⟨nextId, user.name, user.email, hash user.password⟩
    if db.any (fun u => u.name == user.name || u.email == user.email) then
      (db, Except.error ⟨400, "Этот пользователь уже существует"⟩)
    else
      (db ++ [new_user], Except.ok new_user)

/-! ## Claims -/

/-- C1: For every claims set with subject and identity_id present and every
ttl T > 0, decoding the token produced by `create_access_token` with the same
(process-wide) key returns the claims unmodified with the computed `exp`
attached, provided decode runs before the expiry has passed (jose's default
expiry validation makes this proviso necessary). -/
theorem token_roundtrip (data : Payload) (s : String) (i : Int)
    (T now decode_now : Int) (hsub : data.sub = some s) (hid : data.id = some i)
    (hT : 0 < T) (hbefore : ¬ decode_now > now + T) :
    verify_access_token (create_access_token data (some T) now) decode_now =
      Except.ok { data with exp := some (now + T) } := by
  have hT0 : ¬ T = 0 := by omega
  simp [verify_access_token, create_access_token, jwtEncode, jwtDecode, hT0,
    hbefore]

/-- Witness for C1 at a concrete claims set, ttl and decode time. -/
theorem token_roundtrip_witness :
    verify_access_token
        (create_access_token ⟨some "alice", some 1, none⟩ (some 60) 0) 30 =
      Except.ok ⟨some "alice", some 1, some 60⟩ :=
  token_roundtrip ⟨some "alice", some 1, none⟩ "alice" 1 60 0 30 rfl rfl
    (by decide) (by decide)

/-- C4 counterexample: a token signed with `SECRET_KEY` over complete claims
whose `exp` (0) has passed at decode time (10) is rejected by
`verify_access_token` itself — jose's `jwt.decode` raises
`ExpiredSignatureError` by default — so decode does check expiry, contrary
to the claim. -/
theorem decode_checks_expiry_counterexample :
    verify_access_token
        (TokenStr.signed ⟨some "alice", some 1, some 0⟩ SECRET_KEY) 10 =
      Except.error ⟨409, "Недействительный токе"⟩ := rfl

/-- C4 (amended): for every token that parses, whose signature verifies, and
whose `exp` is absent or has not passed at decode time, decode
(`verify_access_token`) returns the embedded claims unmodified; tokens past
their `exp` are rejected already inside decode (jose's default expiry
validation), not only by the Session Guard. -/
theorem decode_returns_claims_unmodified (p : Payload) (now : Int)
    (h : ∀ e, p.exp = some e → ¬ now > e) :
    verify_access_token (TokenStr.signed p SECRET_KEY) now = Except.ok p := by
  cases hexp : p.exp with
  | none => simp [verify_access_token, jwtDecode, hexp]
  | some e => simp [verify_access_token, jwtDecode, hexp, h e hexp]

/-- Witness for C4's amended theorem at a concrete unexpired token. -/
theorem decode_returns_claims_unmodified_witness :
    verify_access_token
        (TokenStr.signed ⟨some "alice", some 1, some 100⟩ SECRET_KEY) 10 =
      Except.ok ⟨some "alice", some 1, some 100⟩ :=
  decode_returns_claims_unmodified ⟨some "alice", some 1, some 100⟩ 10
    (by intro e he; injection he with h2; omega)

/-- C3: an empty token fails with the distinct missing-token error (409,
"Токен пустой"), while a malformed token or one signed with a different key
fails with the invalid-token error (409, "Недействительный токе"), and the
two error values are distinguishable. -/
theorem missing_token_distinct (s : String) (p : Payload) (k : String)
    (now : Int) (hk : k ≠ SECRET_KEY) :
    verify_access_token TokenStr.empty now =
      Except.error ⟨409, "Токен пустой"⟩ ∧
    verify_access_token (TokenStr.malformed s) now =
      Except.error ⟨409, "Недействительный токе"⟩ ∧
    verify_access_token (TokenStr.signed p k) now =
      Except.error ⟨409, "Недействительный токе"⟩ ∧
    (⟨409, "Токен пустой"⟩ : HTTPException) ≠ ⟨409, "Недействительный токе"⟩ := by
  refine ⟨rfl, rfl, ?_, by decide⟩
  simp [verify_access_token, jwtDecode, hk]

/-- Witness for C3 at a concrete malformed string and wrong key. -/
theorem missing_token_distinct_witness :
    verify_access_token TokenStr.empty 0 =
      Except.error ⟨409, "Токен пустой"⟩ ∧
    verify_access_token (TokenStr.malformed "junk") 0 =
      Except.error ⟨409, "Недействительный токе"⟩ ∧
    verify_access_token (TokenStr.signed ⟨none, none, none⟩ "other_key") 0 =
      Except.error ⟨409, "Недействительный токе"⟩ ∧
    (⟨409, "Токен пустой"⟩ : HTTPException) ≠ ⟨409, "Недействительный токе"⟩ :=
  missing_token_distinct "junk" ⟨none, none, none⟩ "other_key" 0 (by decide)

/-- C2 (code bug): at the failing input — a `SECRET_KEY`-signed token with
complete claims {sub, id} and `exp` (0) already passed at `now = 10` — both
Session Guard implementations fail with their invalid-token error, never
with their dedicated expired error, because jose's `jwt.decode` raises
`ExpiredSignatureError` (caught as `JWTError`) before either guard's own
`now > exp` branch can run; those branches (crud: 401 "Истек срок токена",
auth router: 403 "Токен истёк!") are dead code, though the source plainly
intends them to report expiry as a kind distinct from InvalidToken. -/
theorem session_guard_expired_deadcode :
    crud_get_current_user
        (TokenStr.signed ⟨some "alice", some 1, some 0⟩ SECRET_KEY) 10 =
      Except.error ⟨409, "Недействительный токе"⟩ ∧
    auth_get_current_user
        (TokenStr.signed ⟨some "alice", some 1, some 0⟩ SECRET_KEY) 10 =
      Except.error ⟨401, "Не удалось проверить пользователя"⟩ ∧
    (⟨409, "Недействительный токе"⟩ : HTTPException) ≠
      ⟨401, "Истек срок токена"⟩ ∧
    (⟨401, "Не удалось проверить пользователя"⟩ : HTTPException) ≠
      ⟨403, "Токен истёк!"⟩ :=
  ⟨rfl, rfl, by decide, by decide⟩

/-- C6: for every token whose signature verifies and whose claims carry
subject, identity_id and an unexpired `exp`, both Session Guard
implementations succeed with exactly the principal
`{username := subject, id := identity_id}`. -/
theorem session_guard_resolves (s : String) (i e now : Int)
    (hexp : ¬ now > e) :
    crud_get_current_user
        (TokenStr.signed ⟨some s, some i, some e⟩ SECRET_KEY) now =
      Except.ok ⟨s, i⟩ ∧
    auth_get_current_user
        (TokenStr.signed ⟨some s, some i, some e⟩ SECRET_KEY) now =
      Except.ok ⟨s, i⟩ := by
  constructor <;>
    simp [crud_get_current_user, auth_get_current_user, verify_access_token,
      jwtDecode, Payload.isEmpty, hexp]

/-- Witness for C6 at a concrete fresh token. -/
theorem session_guard_resolves_witness :
    crud_get_current_user
        (TokenStr.signed ⟨some "alice", some 1, some 100⟩ SECRET_KEY)
        10 = Except.ok ⟨"alice", 1⟩ ∧
    auth_get_current_user
        (TokenStr.signed ⟨some "alice", some 1, some 100⟩ SECRET_KEY)
        10 = Except.ok ⟨"alice", 1⟩ :=
  session_guard_resolves "alice" 1 100 10 (by decide)

/-- C7: the two near-duplicate token-verification implementations succeed on
exactly the same (token, time) inputs, and when they succeed they return the
same principal; so they differ only in the errors chosen on failing inputs. -/
theorem guards_agree_on_success (t : TokenStr) (now : Int) (p : Principal) :
    crud_get_current_user t now = Except.ok p ↔
      auth_get_current_user t now = Except.ok p := by
  cases t with
  | empty =>
    simp [crud_get_current_user, auth_get_current_user, verify_access_token,
      jwtDecode]
  | malformed s =>
    simp [crud_get_current_user, auth_get_current_user, verify_access_token,
      jwtDecode]
  | signed payload k =>
    by_cases hk : k = SECRET_KEY
    · subst hk
      obtain ⟨sub, id, exp⟩ := payload
      cases exp with
      | none =>
        cases sub <;> cases id <;>
          simp [crud_get_current_user, auth_get_current_user,
            verify_access_token, jwtDecode, Payload.isEmpty]
      | some e =>
        by_cases hlt : now > e <;> cases sub <;> cases id <;>
          simp [crud_get_current_user, auth_get_current_user,
            verify_access_token, jwtDecode, Payload.isEmpty, hlt]
    · simp [crud_get_current_user, auth_get_current_user, verify_access_token,
        jwtDecode, hk]

/-- C5: `authenticate_user` fails with the single invalid-credentials error
(401, "Данные некорректны") both when the username is absent from the store
and when it is present but the credential check is false; the result does not
distinguish the two causes. -/
theorem invalid_credentials_merged (verify : String → String → Bool)
    (db : List User) (username password : String)
    (h : db.find? (fun u => u.name == username) = none ∨
         ∃ u, db.find? (fun v => v.name == username) = some u ∧
              verify password u.password = false) :
    authenticate_user verify db username password =
      Except.error ⟨401, "Данные некорректны"⟩ := by
  rcases h with h | ⟨u, hu, hv⟩
  · simp [authenticate_user, h]
  · simp [authenticate_user, hu, hv]

/-- Witness for C5: an absent username fails exactly like a wrong password. -/
theorem invalid_credentials_merged_witness :
    authenticate_user (fun _ _ => false) [⟨1, "alice", "a@b.c", "h"⟩]
        "ghost" "anything" =
      Except.error ⟨401, "Данные некорректны"⟩ :=
  invalid_credentials_merged (fun _ _ => false) [⟨1, "alice", "a@b.c", "h"⟩]
    "ghost" "anything" (Or.inl (by decide))

/-- C8: whenever `authenticate_user` succeeds with identity `u`, `login`
returns the token signed over claims {sub := u.name, id := u.id} with the
fixed 15-minute ttl, paired with the fixed token-type marker "bearer". -/
theorem login_issues_bearer (verify : String → String → Bool)
    (db : List User) (username password : String) (now : Int) (u : User)
    (h : authenticate_user verify db username password = Except.ok u) :
    login verify db username password now =
      Except.ok ⟨TokenStr.signed ⟨some u.name, some u.id,
                   some (now + fifteenMinutes)⟩ SECRET_KEY, "bearer"⟩ := by
  simp [login, h, auth_create_access_token, jwtEncode]

/-- Witness for C8 at a concrete store and accepting credential check. -/
theorem login_issues_bearer_witness :
    login (fun _ _ => true) [⟨1, "alice", "a@b.c", "h"⟩] "alice" "pw" 0 =
      Except.ok ⟨TokenStr.signed ⟨some "alice", some 1,
                   some (0 + fifteenMinutes)⟩ SECRET_KEY, "bearer"⟩ :=
  login_issues_bearer (fun _ _ => true) [⟨1, "alice", "a@b.c", "h"⟩]
    "alice" "pw" 0 ⟨1, "alice", "a@b.c", "h"⟩ rfl

/-- If some task `t` in the store is not owned by `p` and task ids are unique,
then the id-and-owner query for `t.id` as `p` finds nothing. -/
theorem find_owned_eq_none (db : List Task) (t : Task) (p : Principal)
    (hmem : t ∈ db) (hown : t.user_id ≠ p.id)
    (huniq : ∀ t1 ∈ db, ∀ t2 ∈ db, t1.id = t2.id → t1 = t2) :
    db.find? (taskOwnedBy t.id p.id) = none := by
  rw [List.find?_eq_none]
  intro x hx hpx
  simp [taskOwnedBy] at hpx
  obtain ⟨hid, huid⟩ := hpx
  have hxt : x = t := huniq x hx t hmem hid
  rw [hxt] at huid
  exact hown huid

/-- C9: for every stored task not owned by the principal (with unique task
ids), each of the per-id handlers fails with 404 "Задача не найдена" and
leaves the task store unchanged. -/
theorem task_ownership_enforced (db : List Task) (t : Task) (p : Principal)
    (upd : UpdateTask) (hmem : t ∈ db) (hown : t.user_id ≠ p.id)
    (huniq : ∀ t1 ∈ db, ∀ t2 ∈ db, t1.id = t2.id → t1 = t2) :
    get_task_id db t.id p = Except.error ⟨404, "Задача не найдена"⟩ ∧
    update_task db t.id upd p = (db, Except.error ⟨404, "Задача не найдена"⟩) ∧
    delete_task db t.id p = (db, Except.error ⟨404, "Задача не найдена"⟩) := by
  have hnone := find_owned_eq_none db t p hmem hown huniq
  refine ⟨?_, ?_, ?_⟩ <;> simp [get_task_id, update_task, delete_task, hnone]

/-- Witness for C9: a task owned by user 2, accessed as user 3. -/
theorem task_ownership_enforced_witness :
    get_task_id [⟨1, "t", "d", "Новая", 2⟩] 1 ⟨"alice", 3⟩ =
      Except.error ⟨404, "Задача не найдена"⟩ ∧
    update_task [⟨1, "t", "d", "Новая", 2⟩] 1 ⟨"Завершена"⟩ ⟨"alice", 3⟩ =
      ([⟨1, "t", "d", "Новая", 2⟩],
       Except.error ⟨404, "Задача не найдена"⟩) ∧
    delete_task [⟨1, "t", "d", "Новая", 2⟩] 1 ⟨"alice", 3⟩ =
      ([⟨1, "t", "d", "Новая", 2⟩],
       Except.error ⟨404, "Задача не найдена"⟩) :=
  task_ownership_enforced [⟨1, "t", "d", "Новая", 2⟩] ⟨1, "t", "d", "Новая", 2⟩
    ⟨"alice", 3⟩ ⟨"Завершена"⟩ (by simp) (by decide) (by decide)

/-- The nested early returns of `is_password_strong` succeed exactly when all
five checks pass, for any digit class. -/
theorem is_password_strong_true_iff (digit : Char → Bool) (pw : String) :
    is_password_strong digit pw = true ↔
      (8 ≤ pw.data.length ∧
       pw.data.any (fun c => 'A' ≤ c && c ≤ 'Z') = true ∧
       pw.data.any (fun c => 'a' ≤ c && c ≤ 'z') = true ∧
       pw.data.any digit = true ∧
       pw.data.any (fun c => specialChars.contains c) = true) := by
  unfold is_password_strong
  split_ifs with h1 h2 h3 h4 h5 <;> simp_all <;> omega

/-- C10: for any digit class (the class of `re.search(r"\d", ...)`, any
Unicode decimal digit), a CreateUser payload whose password is shorter than
8 characters, or has no uppercase letter, no lowercase letter, no digit of
that class, or no special character, is rejected by `create_user` with 400
"Пароль не соответствует требованиям", and the user store is unchanged. -/
theorem weak_password_rejected (digit : Char → Bool)
    (hash : String → String) (nextId : Int)
    (db : List User) (user : CreateUser)
    (h : user.password.data.length < 8 ∨
         (∀ c ∈ user.password.data, ¬('A' ≤ c ∧ c ≤ 'Z')) ∨
         (∀ c ∈ user.password.data, ¬('a' ≤ c ∧ c ≤ 'z')) ∨
         (∀ c ∈ user.password.data, digit c = false) ∨
         (∀ c ∈ user.password.data, c ∉ specialChars)) :
    create_user digit hash nextId db user =
      (db, Except.error ⟨400, "Пароль не соответствует требованиям"⟩) := by
  have hws : is_password_strong digit user.password = false := by
    rw [Bool.eq_false_iff, Ne, is_password_strong_true_iff]
    rintro ⟨h8, ha, hb, hc, hd⟩
    rcases h with h | h | h | h | h
    · omega
    · rw [List.any_eq_true] at ha
      obtain ⟨c, hcmem, hcp⟩ := ha
      simp only [Bool.and_eq_true, decide_eq_true_eq] at hcp
      exact h c hcmem hcp
    · rw [List.any_eq_true] at hb
      obtain ⟨c, hcmem, hcp⟩ := hb
      simp only [Bool.and_eq_true, decide_eq_true_eq] at hcp
      exact h c hcmem hcp
    · rw [List.any_eq_true] at hc
      obtain ⟨c, hcmem, hcp⟩ := hc
      rw [h c hcmem] at hcp
      exact Bool.false_ne_true hcp
    · rw [List.any_eq_true] at hd
      obtain ⟨c, hcmem, hcp⟩ := hd
      simp only [List.contains_eq_any_beq, List.any_eq_true, beq_iff_eq] at hcp
      obtain ⟨c2, hc2mem, hc2⟩ := hcp
      exact h c hcmem (hc2 ▸ hc2mem)
  simp [create_user, hws]

/-- Witness for C10: a 3-character password is rejected (digit class
instantiated with a representative decidable class). -/
theorem weak_password_rejected_witness :
    create_user (fun c => c.isDigit) (fun s => s) 1 []
        ⟨"bob", "b@b.c", "abc"⟩ =
      ([], Except.error ⟨400, "Пароль не соответствует требованиям"⟩) :=
  weak_password_rejected (fun c => c.isDigit) (fun s => s) 1 []
    ⟨"bob", "b@b.c", "abc"⟩ (Or.inl (by decide))

end TaskManager
